import Mathlib

/-!
Shallow embedding of the XuperManager point-of-sale engine
(`src/models/cart.py`, `src/models/order.py`, `src/services/pricing_service.py`,
`src/services/membership_service.py`, `src/services/checkout_service.py`,
`src/data/repository.py`).

Python floats are modelled as exact rationals (ℚ); `round(x, 2)` is modelled
as rounding to the nearest multiple of 1/100 (`round2`).  Every rounding that
the claims exercise is far from a tie, so the difference between Python's
float/banker rounding and exact half-up rounding on ℚ is immaterial there.
Python dicts are modelled as association lists with unique keys; mutation is
modelled by explicit state passing.  `datetime.now()` is modelled by an
explicit clock parameter, and times of day by minutes since midnight.
-/

namespace XuperManager

/-- `round(x, 2)`: round to the nearest multiple of 1/100. -/
def round2 (q : ℚ) : ℚ := (⌊q * 100 + 1 / 2⌋ : ℚ) / 100

/-! ## models/cart.py -/

/-- `CartItem` dataclass: `{sku, qty}`. Python ints are modelled as ℤ. -/
structure CartItem where
  sku : String
  qty : Int
deriving DecidableEq, Repr

/-- `Cart`: mutable ordered list of `CartItem`. -/
structure Cart where
  items : List CartItem
deriving DecidableEq, Repr

/-- `Cart.add(sku, qty)`: raises `ValueError` when `qty <= 0`, else appends
`CartItem(sku, qty)`.  Mutation of `self` is modelled by returning the new
cart alongside the exception status; on the raising path the cart is the
unchanged receiver, exactly as in the Python (the raise precedes the append). -/
def Cart.add (c : Cart) (sku : String) (qty : Int) : Except String Unit × Cart :=
  if qty ≤ 0 then (.error "The quantity must be a positive number.", c)
  else (.ok (), ⟨c.items ++ [⟨sku, qty⟩]⟩)

/-- `Cart.clear()`. -/
def Cart.clear (_ : Cart) : Cart := ⟨[]⟩

/-! ## services/membership_service.py -/

/-- `compute_tier(lifetime_spend)`. -/
def compute_tier (lifetime_spend : ℚ) : String :=
  if 1000 ≤ lifetime_spend then "VIP"
  else if 500 ≤ lifetime_spend then "GOLD"
  else if 100 ≤ lifetime_spend then "SILVER"
  else "REGULAR"

/-! ## services/pricing_service.py -/

/-- Product dict as used by the pricing/checkout code: the fields read are
`product["price"]` and `product.get("category", "")`. -/
structure Product where
  name : String
  category : String
  price : ℚ
  active : Bool
deriving DecidableEq, Repr

/-- The `context` dict passed to rules: `membership` (defaulted to
`"REGULAR"` by `context.get`), and the current time (`context.get("now",
datetime.now())`) as minutes since midnight. -/
structure Ctx where
  membership : String
  now : Nat
deriving DecidableEq, Repr

/-- The four `DiscountRule` subclasses, as a closed sum. -/
inductive DiscountRule where
  | categoryDiscount (category_discounts : List (String × ℚ))
  | timeDiscount (start_time end_time : Nat) (rate : ℚ)
  | membershipDiscount (tier_discounts : List (String × ℚ))
  | bulkQuantity (threshold : Int) (rate : ℚ)
deriving DecidableEq, Repr

/-- `DiscountRule.apply(sku, product, qty, unit_price, context)` for each
subclass, translated clause by clause from `pricing_service.py`. -/
def DiscountRule.apply (r : DiscountRule) (_sku : String) (product : Product)
    (qty : Int) (unit_price : ℚ) (context : Ctx) : ℚ :=
  match r with
  | .categoryDiscount category_discounts =>
      match category_discounts.lookup product.category with
      | some rate => round2 (unit_price * (1 - rate))
      | none => unit_price
  | .timeDiscount start_time end_time rate =>
      if start_time ≤ context.now ∧ context.now ≤ end_time then
        round2 (unit_price * (1 - rate))
      else unit_price
  | .membershipDiscount tier_discounts =>
      match tier_discounts.lookup context.membership with
      | some rate => round2 (unit_price * (1 - rate))
      | none => unit_price
  | .bulkQuantity threshold rate =>
      if threshold ≤ qty then round2 (unit_price * (1 - rate))
      else unit_price

/-- `PricingService`: an ordered list of rules. -/
structure PricingService where
  rules : List DiscountRule
deriving DecidableEq, Repr

/-- `PricingService.add_rule`. -/
def PricingService.add_rule (s : PricingService) (r : DiscountRule) : PricingService :=
  ⟨s.rules ++ [r]⟩

/-- One iteration of the `price_item` loop: apply the rule, then the safety
clamp `if price < 0: price = 0.0`. -/
def priceStep (sku : String) (product : Product) (qty : Int) (context : Ctx)
    (price : ℚ) (rule : DiscountRule) : ℚ :=
  let p := rule.apply sku product qty price context
  if p < 0 then 0 else p

/-- `PricingService.price_item`: fold the rules over the base price in
registration order (each iteration applies the rule then the clamp), then a
final `round(price, 2)`. -/
def PricingService.price_item (s : PricingService) (sku : String) (product : Product)
    (qty : Int) (base_unit_price : ℚ) (context : Ctx) : ℚ :=
  round2 (s.rules.foldl (priceStep sku product qty context) base_unit_price)

/-- The successive values of `price` after each loop iteration of
`price_item` (rule application followed by the clamp), in order. -/
def priceSteps (rules : List DiscountRule) (sku : String) (product : Product)
    (qty : Int) (price : ℚ) (context : Ctx) : List ℚ :=
  match rules with
  | [] => []
  | r :: rs =>
      let p := priceStep sku product qty context price r
      p :: priceSteps rs sku product qty p context

/-! ## models/order.py and services/checkout_service.py -/

/-- `OrderItem` dataclass. -/
structure OrderItem where
  sku : String
  qty : Int
  unit_price : ℚ
  subtotal : ℚ
deriving DecidableEq, Repr

/-- `Order` dataclass.  `created_at` (a `datetime`, persisted as its ISO
string) is modelled as an opaque string supplied by the clock. -/
structure Order where
  order_id : String
  created_at : String
  items : List OrderItem
  total : ℚ
deriving DecidableEq, Repr

/-- The exceptions `checkout` can raise: the two `ValueError`s of the
validation phase, and a `KeyError` from `inventory[sku] -= qty` when the SKU
is missing from the inventory dict (reachable only with a non-positive
quantity in the cart, since validation requires `inventory.get(sku, 0) >= qty`). -/
inductive CheckoutError where
  | skuNotFound (sku : String)
  | insufficientStock (sku : String)
  | keyError (sku : String)
deriving DecidableEq, Repr

/-- The inventory dict `{sku: quantity}`, as an association list.  Python
dict keys are unique; theorems that need this carry a `Nodup` hypothesis. -/
abbrev Inventory := List (String × Int)

/-- `inventory.get(sku, 0)`. -/
def invGet (inv : Inventory) (sku : String) : Int := (inv.lookup sku).getD 0

/-- `inventory[sku] -= qty`: update the (unique) entry for `sku`, or
`none` for a Python `KeyError` when the key is absent. -/
def invSub (inv : Inventory) (sku : String) (qty : Int) : Option Inventory :=
  match inv with
  | [] => none
  | (k, v) :: rest =>
      if k = sku then some ((k, v - qty) :: rest)
      else (invSub rest sku qty).map (fun r => (k, v) :: r)

/-- The stock-deduction loop `for it in cart.items: inventory[it.sku] -= it.qty`.
On a `KeyError` the loop stops; the first component names the offending SKU
and the second is the inventory as mutated so far (the exception propagates
out of `checkout` before any persistence). -/
def deductAll (items : List CartItem) (inv : Inventory) : Option String × Inventory :=
  match items with
  | [] => (none, inv)
  | it :: rest =>
      match invSub inv it.sku it.qty with
      | none => (some it.sku, inv)
      | some inv2 => deductAll rest inv2

/-- The validation loop of `checkout` (phase 1): returns the exception raised
for the first offending cart item, or `none`. -/
def validate (items : List CartItem) (products_map : List (String × Product))
    (inv : Inventory) : Option CheckoutError :=
  match items with
  | [] => none
  | it :: rest =>
      if (products_map.lookup it.sku).isNone then some (.skuNotFound it.sku)
      else if invGet inv it.sku < it.qty then some (.insufficientStock it.sku)
      else validate rest products_map inv

/-- The pricing loop of `checkout` (phase 2): builds the order items and the
running total.  `none` models the `KeyError` of `products_map[it.sku]` on a
missing SKU, unreachable after a successful validation phase. -/
def priceLines (pricing : PricingService) (items : List CartItem)
    (products_map : List (String × Product)) (membership_tier : String) (now : Nat) :
    Option (List OrderItem × ℚ) :=
  match items with
  | [] => some ([], 0)
  | it :: rest =>
      match products_map.lookup it.sku with
      | none => none
      | some product =>
          let context : Ctx := ⟨membership_tier, now⟩
          let final_unit_price :=
            pricing.price_item it.sku product it.qty product.price context
          let subtotal := round2 (final_unit_price * it.qty)
          match priceLines pricing rest products_map membership_tier now with
          | none => none
          | some (lines, t) =>
              some (⟨it.sku, it.qty, final_unit_price, subtotal⟩ :: lines, subtotal + t)

/-- `f"ORD-{n:06d}"`. -/
def mkOrderId (n : Nat) : String :=
  let s := toString n
  "ORD-" ++ String.mk (List.replicate (6 - s.length) '0') ++ s

/-- The mutable state `checkout` touches: the cart, the inventory dict, and
the persisted order history (`repo.get_orders()` / `repo.save_orders`). -/
structure CheckoutState where
  cart : Cart
  inventory : Inventory
  orders : List Order
deriving DecidableEq, Repr

/-- `CheckoutService.checkout(cart, products_map, inventory, membership_tier)`,
with the pricing service, the wall clock (minutes since midnight, for the
time rules) and the `datetime.now()` timestamp string as explicit parameters.
Returns the raised exception or the returned `Order`, paired with the
post-call state.  On a validation error nothing has been mutated; on the
(unreachable-after-validation) pricing `KeyError` likewise; on a deduction
`KeyError` the inventory holds the partial mutations but nothing is persisted
and the cart is not cleared — all exactly as in the Python control flow. -/
def checkout (pricing : PricingService) (st : CheckoutState)
    (products_map : List (String × Product)) (membership_tier : String)
    (now : Nat) (created_at : String) : Except CheckoutError Order × CheckoutState :=
  match validate st.cart.items products_map st.inventory with
  | some e => (.error e, st)
  | none =>
      match priceLines pricing st.cart.items products_map membership_tier now with
      | none => (.error (.keyError "products_map"), st)
      | some (order_items, raw_total) =>
          let total := round2 raw_total
          match deductAll st.cart.items st.inventory with
          | (some sku, inv2) => (.error (.keyError sku), { st with inventory := inv2 })
          | (none, inv2) =>
              let order_id := mkOrderId (st.orders.length + 1)
              let order : Order := ⟨order_id, created_at, order_items, total⟩
              (.ok order, ⟨⟨[]⟩, inv2, st.orders ++ [order]⟩)

/-! ## data/repository.py -/

/-- JSON values, for the promotions store. -/
inductive Json where
  | null
  | bool (b : Bool)
  | num (q : ℚ)
  | str (s : String)
  | arr (xs : List Json)
  | obj (kvs : List (String × Json))

/-- The observable states of a stored JSON file as `_read_json` branches on
them: missing, present but blank, unreadable/unparsable, or parsed content. -/
inductive ReadFile where
  | missing
  | empty
  | corrupt
  | content (j : Json)

/-- `DataRepository._read_json`: missing file, blank file, and any exception
all yield `[]`; otherwise the parsed JSON value. -/
def read_json (f : ReadFile) : Json :=
  match f with
  | .missing => .arr []
  | .empty => .arr []
  | .corrupt => .arr []
  | .content j => j

/-- The default `happy_hour` object of `get_promotions`. -/
def happyHourDefault : Json :=
  .obj [("start", .str "17:00"), ("end", .str "18:00"), ("rate", .num 0.05)]

/-- The default `bulk` object of `get_promotions`. -/
def bulkDefault : Json := .obj [("threshold", .num 3), ("rate", .num 0.05)]

/-- `DataRepository.get_promotions`: read the store, coerce a non-dict to
`{}`, then build the result with `data.get(key, default)` per key. -/
def get_promotions (f : ReadFile) : Json :=
  let data := read_json f
  let kvs := match data with
    | .obj kvs => kvs
    | _ => []
  .obj [("category_discounts", ((kvs.lookup "category_discounts").getD (.obj []))),
        ("happy_hour", ((kvs.lookup "happy_hour").getD happyHourDefault)),
        ("bulk", ((kvs.lookup "bulk").getD bulkDefault))]

/-! ## Concrete instances used by examples, witnesses and counterexamples -/

/-- The rule registration of §8 "Compounding determinism": Category(Dairy→10%),
TimeWindow(17:00–18:00, 5%), Membership(VIP→8%), Bulk(≥3, 5%). -/
def c3Engine : PricingService :=
  ⟨[.categoryDiscount [("Dairy", 0.10)],
    .timeDiscount 1020 1080 0.05,
    .membershipDiscount [("VIP", 0.08)],
    .bulkQuantity 3 0.05]⟩

/-- A Dairy product with base unit price 10.00. -/
def dairyProduct : Product := ⟨"Milk", "Dairy", 10, true⟩

/-- 17:25, inside the 17:00–18:00 window, as minutes since midnight. -/
def c3Now : Nat := 1045

/-- An engine holding a single bulk rule (threshold 3, rate 5%). -/
def bulkOnlyEngine : PricingService := ⟨[.bulkQuantity 3 0.05]⟩

/-- A product "A" priced 10.00, for the duplicate-SKU checkout example. -/
def productA : Product := ⟨"Apple", "Fruit", 10, true⟩

/-- An engine with no rules. -/
def emptyEngine : PricingService := ⟨[]⟩

/-- An engine holding a single category rule with an empty rate table: its
`apply` always passes the price through unchanged. -/
def passThroughEngine : PricingService := ⟨[.categoryDiscount []]⟩

/-- Total quantity requested for one SKU across all cart lines. -/
def totalQty (items : List CartItem) (sku : String) : Int :=
  (items.map (fun it => if it.sku = sku then it.qty else 0)).sum

/-- A cart item "offends" validation when its SKU is absent from the catalog
or the available stock is below its quantity. -/
def offends (products_map : List (String × Product)) (inv : Inventory)
    (it : CartItem) : Prop :=
  products_map.lookup it.sku = none ∨ invGet inv it.sku < it.qty

instance (products_map : List (String × Product)) (inv : Inventory)
    (it : CartItem) : Decidable (offends products_map inv it) := by
  unfold offends; infer_instance

/-- The exception the validation phase raises for an offending item. -/
def classify (products_map : List (String × Product)) (it : CartItem) :
    CheckoutError :=
  if products_map.lookup it.sku = none then .skuNotFound it.sku
  else .insufficientStock it.sku

/-- The full-default promotions object. -/
def defaultPromotions : Json :=
  .obj [("category_discounts", .obj []),
        ("happy_hour", happyHourDefault),
        ("bulk", bulkDefault)]

/-! ## Helper lemmas -/

theorem priceSteps_getLastD (rules : List DiscountRule) (sku : String)
    (product : Product) (qty : Int) (context : Ctx) :
    ∀ price : ℚ, rules.foldl (priceStep sku product qty context) price
      = (priceSteps rules sku product qty price context).getLastD price := by
  induction rules with
  | nil => intro price; rfl
  | cons r rs ih =>
      intro price
      simp only [List.foldl_cons, priceSteps, List.getLastD_cons]
      exact ih (priceStep sku product qty context price r)

theorem validate_first (products_map : List (String × Product)) (inv : Inventory)
    (it : CartItem) (post : List CartItem) :
    ∀ pre : List CartItem, (∀ j ∈ pre, ¬ offends products_map inv j) →
      offends products_map inv it →
      validate (pre ++ it :: post) products_map inv
        = some (classify products_map it) := by
  intro pre
  induction pre with
  | nil =>
      intro _ hit
      by_cases hsku : products_map.lookup it.sku = none
      · simp [validate, hsku, classify]
      · rcases hit with h | h
        · exact absurd h hsku
        · simp [validate, classify, hsku, h, Option.isNone_iff_eq_none]
  | cons j pre ih =>
      intro hclean hit
      have hj : ¬ offends products_map inv j := hclean j (by simp)
      rw [offends, not_or, not_lt] at hj
      simp only [List.cons_append, validate, Option.isNone_iff_eq_none,
        if_neg hj.1, if_neg (not_lt.mpr hj.2)]
      exact ih (fun x hx => hclean x (by simp [hx])) hit

theorem invSub_eq_map (sku : String) (qty : Int) :
    ∀ inv : Inventory, (inv.map Prod.fst).Nodup → sku ∈ inv.map Prod.fst →
      invSub inv sku qty
        = some (inv.map (fun kv => (kv.1, kv.2 - if kv.1 = sku then qty else 0))) := by
  intro inv
  induction inv with
  | nil => intro _ h; simp at h
  | cons kv rest ih =>
      intro hnodup hmem
      obtain ⟨k, v⟩ := kv
      rw [List.map_cons, List.nodup_cons] at hnodup
      rw [List.map_cons, List.mem_cons] at hmem
      have hn := hnodup
      by_cases hk : k = sku
      · subst hk
        have hrest : rest.map (fun kv => (kv.1, kv.2 - if kv.1 = k then qty else 0))
            = rest := by
          have hid : ∀ kv2 ∈ rest,
              (kv2.1, kv2.2 - if kv2.1 = k then qty else 0) = kv2 := by
            intro kv2 h2
            have hmemf : kv2.1 ∈ rest.map Prod.fst := List.mem_map_of_mem Prod.fst h2
            have hne : kv2.1 ≠ k := fun heq => hn.1 (heq ▸ hmemf)
            simp [hne]
          calc rest.map (fun kv => (kv.1, kv.2 - if kv.1 = k then qty else 0))
              = rest.map id := List.map_congr_left (by simpa using hid)
            _ = rest := List.map_id rest
        simp [invSub, hrest]
      · have hmem2 : sku ∈ rest.map Prod.fst := by
          rcases hmem with h | h
          · exact absurd h.symm hk
          · exact h
        simp [invSub, hk, ih hn.2 hmem2]

theorem invSub_mem (sku : String) (qty : Int) :
    ∀ (inv inv2 : Inventory), invSub inv sku qty = some inv2 →
      sku ∈ inv.map Prod.fst := by
  intro inv
  induction inv with
  | nil => intro inv2 h; simp [invSub] at h
  | cons kv rest ih =>
      intro inv2 h
      obtain ⟨k, v⟩ := kv
      by_cases hk : k = sku
      · simp [hk]
      · simp only [invSub, if_neg hk] at h
        rcases Option.map_eq_some'.mp h with ⟨r, hr, _⟩
        simpa using Or.inr (ih r hr)

theorem totalQty_cons (it : CartItem) (rest : List CartItem) (sku : String) :
    totalQty (it :: rest) sku
      = (if it.sku = sku then it.qty else 0) + totalQty rest sku := by
  simp [totalQty]

theorem deductAll_eq_map :
    ∀ (items : List CartItem) (inv : Inventory), (inv.map Prod.fst).Nodup →
      (deductAll items inv).1 = none →
      (deductAll items inv).2
        = inv.map (fun kv => (kv.1, kv.2 - totalQty items kv.1)) := by
  intro items
  induction items with
  | nil =>
      intro inv _ _
      simp [deductAll, totalQty]
  | cons it rest ih =>
      intro inv hnodup hok
      rcases hs : invSub inv it.sku it.qty with _ | inv2
      · rw [deductAll, hs] at hok
        simp at hok
      · have hmem := invSub_mem it.sku it.qty inv inv2 hs
        have hinv2 : inv2
            = inv.map (fun kv => (kv.1, kv.2 - if kv.1 = it.sku then it.qty else 0)) := by
          have h2 := invSub_eq_map it.sku it.qty inv hnodup hmem
          rw [hs] at h2
          exact Option.some.inj h2
        have hkeys : inv2.map Prod.fst = inv.map Prod.fst := by
          rw [hinv2, List.map_map]
          rfl
        have hok2 : (deductAll rest inv2).1 = none := by
          rw [deductAll, hs] at hok
          exact hok
        have := ih inv2 (hkeys ▸ hnodup) hok2
        rw [deductAll, hs, this, hinv2, List.map_map]
        apply List.map_congr_left
        intro kv _
        simp only [Function.comp_apply, totalQty_cons, Prod.mk.injEq, true_and]
        have hiff : (if it.sku = kv.1 then it.qty else 0)
            = (if kv.1 = it.sku then it.qty else 0) := by
          by_cases h : kv.1 = it.sku
          · simp [h]
          · rw [if_neg h, if_neg (fun heq => h heq.symm)]
        rw [hiff]
        ring

/-! ## Claims -/

/-- C3: with rules registered as Category(Dairy→10%), TimeWindow(17:00–18:00,
5%), Membership(VIP→8%), Bulk(≥3, 5%), pricing a Dairy product of base unit
price 10.00 at qty 3, in-window time and VIP tier produces the intermediate
prices 9.00, 8.55, 7.87, 7.48 after the successive rules, and `price_item`
returns 7.48: discounts compound multiplicatively on the already-discounted
price, rounded to 2 decimals after each rule. -/
theorem price_item_compounding_example :
    priceSteps c3Engine.rules "SKU-MILK" dairyProduct 3 10 ⟨"VIP", c3Now⟩
      = [9, 8.55, 7.87, 7.48] ∧
    c3Engine.price_item "SKU-MILK" dairyProduct 3 10 ⟨"VIP", c3Now⟩ = 7.48 :=
  ⟨by with_unfolding_all rfl, by with_unfolding_all rfl⟩

/-- C4: `compute_tier` maps lifetime spend to VIP when ≥ 1000, GOLD on
[500, 1000), SILVER on [100, 500), REGULAR below 100; in particular at the
six boundary inputs 99.99, 100.00, 499.99, 500.00, 999.99, 1000.00. -/
theorem compute_tier_spec :
    (∀ s : ℚ, 1000 ≤ s → compute_tier s = "VIP") ∧
    (∀ s : ℚ, 500 ≤ s → s < 1000 → compute_tier s = "GOLD") ∧
    (∀ s : ℚ, 100 ≤ s → s < 500 → compute_tier s = "SILVER") ∧
    (∀ s : ℚ, s < 100 → compute_tier s = "REGULAR") ∧
    compute_tier 99.99 = "REGULAR" ∧ compute_tier 100 = "SILVER" ∧
    compute_tier 499.99 = "SILVER" ∧ compute_tier 500 = "GOLD" ∧
    compute_tier 999.99 = "GOLD" ∧ compute_tier 1000 = "VIP" := by
  refine ⟨fun s h => ?_, fun s h1 h2 => ?_, fun s h1 h2 => ?_, fun s h => ?_,
    ?_, ?_, ?_, ?_, ?_, ?_⟩
  · simp only [compute_tier, if_pos h]
  · simp only [compute_tier]
    rw [if_neg (by linarith), if_pos h1]
  · simp only [compute_tier]
    rw [if_neg (by linarith), if_neg (by linarith), if_pos h1]
  · simp only [compute_tier]
    rw [if_neg (by linarith), if_neg (by linarith), if_neg (by linarith)]
  all_goals with_unfolding_all rfl

/-- C4 witness: the six boundary evaluations follow from the general clauses
of `compute_tier_spec` applied at concrete spends. -/
theorem compute_tier_spec_witness :
    compute_tier 1000 = "VIP" ∧ compute_tier 999.99 = "GOLD" ∧
    compute_tier 100 = "SILVER" ∧ compute_tier 99.99 = "REGULAR" :=
  ⟨compute_tier_spec.1 1000 (by norm_num),
   compute_tier_spec.2.1 999.99 (by norm_num) (by norm_num),
   compute_tier_spec.2.2.1 100 (by norm_num) (by norm_num),
   compute_tier_spec.2.2.2.1 99.99 (by norm_num)⟩

/-- C8: `Cart.add(sku, qty)` raises the `InvalidQuantity` error exactly when
`qty ≤ 0`; on that path the cart's item list is unchanged, and on success
exactly the one new item is appended at the end, prior entries unchanged. -/
theorem cart_add_spec (c : Cart) (sku : String) (qty : Int) :
    ((Cart.add c sku qty).1
        = .error "The quantity must be a positive number." ↔ qty ≤ 0) ∧
    (qty ≤ 0 → (Cart.add c sku qty).2 = c) ∧
    (0 < qty → (Cart.add c sku qty).1 = .ok () ∧
      (Cart.add c sku qty).2.items = c.items ++ [⟨sku, qty⟩]) := by
  by_cases h : qty ≤ 0
  · refine ⟨by simp [Cart.add, h], fun _ => by simp [Cart.add, h],
      fun hlt => absurd h (not_le.mpr hlt)⟩
  · refine ⟨by simp [Cart.add, h], fun hle => absurd hle h,
      fun _ => by simp [Cart.add, h]⟩

/-- C8 witness: adding qty 0 to a concrete cart raises and leaves the cart's
single item in place; adding qty 2 appends the new item after it. -/
theorem cart_add_spec_witness :
    ((Cart.add ⟨[⟨"A", 1⟩]⟩ "B" 0).1
        = .error "The quantity must be a positive number." ∧
     (Cart.add ⟨[⟨"A", 1⟩]⟩ "B" 0).2 = ⟨[⟨"A", 1⟩]⟩) ∧
    ((Cart.add ⟨[⟨"A", 1⟩]⟩ "B" 2).1 = .ok () ∧
     (Cart.add ⟨[⟨"A", 1⟩]⟩ "B" 2).2.items = [⟨"A", 1⟩, ⟨"B", 2⟩]) :=
  ⟨⟨(cart_add_spec ⟨[⟨"A", 1⟩]⟩ "B" 0).1.mpr (by norm_num),
    (cart_add_spec ⟨[⟨"A", 1⟩]⟩ "B" 0).2.1 (by norm_num)⟩,
   ((cart_add_spec ⟨[⟨"A", 1⟩]⟩ "B" 2).2.2 (by norm_num))⟩

/-- C10: checking out an empty cart succeeds: it returns and persists an
order with no items and total 0, under the next sequential order id, leaves
the inventory snapshot unchanged, and clears the (already empty) cart. -/
theorem checkout_empty_cart (pricing : PricingService) (inv : Inventory)
    (orders : List Order) (products_map : List (String × Product))
    (tier : String) (now : Nat) (ts : String) :
    checkout pricing ⟨⟨[]⟩, inv, orders⟩ products_map tier now ts
      = (.ok ⟨mkOrderId (orders.length + 1), ts, [], 0⟩,
         ⟨⟨[]⟩, inv, orders ++ [⟨mkOrderId (orders.length + 1), ts, [], 0⟩]⟩) := by
  have h0 : round2 0 = 0 := by unfold round2; norm_num
  simp [checkout, validate, priceLines, deductAll, h0]

/-- C5: every successful checkout assigns the new order the id `"ORD-"`
followed by the zero-padded 6-digit decimal of (number of previously
persisted orders + 1), and appends exactly one order to the history, so with
an empty history the first order gets "ORD-000001" and a subsequent checkout
gets "ORD-000002". -/
theorem checkout_sequential_order_ids :
    (∀ (pricing : PricingService) (st : CheckoutState)
        (products_map : List (String × Product)) (tier : String) (now : Nat)
        (ts : String) (o : Order) (st2 : CheckoutState),
      checkout pricing st products_map tier now ts = (.ok o, st2) →
        o.order_id = mkOrderId (st.orders.length + 1) ∧
        st2.orders.length = st.orders.length + 1) ∧
    mkOrderId 1 = "ORD-000001" ∧ mkOrderId 2 = "ORD-000002" := by
  refine ⟨?_, by with_unfolding_all rfl, by with_unfolding_all rfl⟩
  intro pricing st products_map tier now ts o st2 h
  unfold checkout at h
  split at h
  · simp at h
  · split at h
    · simp at h
    · split at h
      · simp at h
      · simp only [Prod.mk.injEq, Except.ok.injEq] at h
        obtain ⟨h1, h2⟩ := h
        constructor
        · rw [← h1]
        · rw [← h2]
          simp

/-- C5 witness: a concrete successful checkout from an empty order history
yields an order carrying id `mkOrderId 1` and a history of length 1. -/
theorem checkout_sequential_order_ids_witness :
    (⟨"ORD-000001", "t", [], 0⟩ : Order).order_id
        = mkOrderId (([] : List Order).length + 1) ∧
    (⟨⟨[]⟩, [], [⟨"ORD-000001", "t", [], 0⟩]⟩ : CheckoutState).orders.length
        = ([] : List Order).length + 1 :=
  checkout_sequential_order_ids.1 emptyEngine ⟨⟨[]⟩, [], []⟩ [] "REGULAR" 0 "t"
    ⟨"ORD-000001", "t", [], 0⟩ ⟨⟨[]⟩, [], [⟨"ORD-000001", "t", [], 0⟩]⟩
    (by with_unfolding_all rfl)

/-- C6 counterexample: the claim asserts the running price is a 2-decimal
value after every rule application, for every rule list and non-negative
base price.  A rule whose table misses the product's category passes the
price through unrounded: with base price 1.005 the running price after the
rule is 1.005, which is not a 2-decimal value (rounding it changes it). -/
theorem priceSteps_unrounded_counterexample :
    priceSteps passThroughEngine.rules "A" productA 1 1.005 ⟨"REGULAR", 0⟩
      = [1.005] ∧
    round2 1.005 = 1.01 ∧ (1.005 : ℚ) ≠ 1.01 :=
  ⟨by with_unfolding_all rfl, by with_unfolding_all rfl, by norm_num⟩

/-- C6 amended: after every individual rule application during the
`price_item` fold the running price is ≥ 0 — a rule output that would be
negative is replaced by 0 before the next rule runs — for every rule list,
base price and context; and `price_item` is the final rounding of the last
of these running prices.  (The claim's further assertion that each running
price is rounded to 2 decimals fails for pass-through rules, which return
the incoming price unrounded: see the counterexample.) -/
theorem priceSteps_nonneg_amended :
    (∀ (rules : List DiscountRule) (sku : String) (product : Product)
        (qty : Int) (base : ℚ) (context : Ctx),
      ∀ p ∈ priceSteps rules sku product qty base context, 0 ≤ p) ∧
    (∀ (s : PricingService) (sku : String) (product : Product) (qty : Int)
        (base : ℚ) (context : Ctx),
      s.price_item sku product qty base context
        = round2 ((priceSteps s.rules sku product qty base context).getLastD base)) := by
  constructor
  · intro rules sku product qty base context
    induction rules generalizing base with
    | nil => intro p hp; simp [priceSteps] at hp
    | cons r rs ih =>
        intro p hp
        simp only [priceSteps, List.mem_cons] at hp
        rcases hp with h | h
        · subst h
          unfold priceStep
          dsimp only
          split
          · exact le_refl (0 : ℚ)
          · exact le_of_not_lt (by assumption)
        · exact ih (priceStep sku product qty context base r) p h
  · intro s sku product qty base context
    unfold PricingService.price_item
    rw [priceSteps_getLastD]

/-- C6 amended witness: the first running price of the compounding example is
in the step list and hence non-negative. -/
theorem priceSteps_nonneg_amended_witness : (0 : ℚ) ≤ 9 :=
  priceSteps_nonneg_amended.1 c3Engine.rules "SKU-MILK" dairyProduct 3 10
    ⟨"VIP", c3Now⟩ 9
    (by
      have h : priceSteps c3Engine.rules "SKU-MILK" dairyProduct 3 10
          ⟨"VIP", c3Now⟩ = [9, 8.55, 7.87, 7.48] := by with_unfolding_all rfl
      rw [h]
      exact List.mem_cons_self 9 _)

/-- C7: adding SKU "A" with qty 2 and then qty 3 yields two separate cart
entries in insertion order; checking that cart out (with a bulk ≥3 rule in
force) produces two independently priced order lines — the qty-2 line at
unit 10.00/subtotal 20.00, the qty-3 line (bulk-discounted) at unit
9.50/subtotal 28.50 — with total 48.50, the rounded sum of the two
subtotals, which differs from the 47.50 a merged qty-5 line would produce. -/
theorem checkout_duplicate_sku_lines :
    (Cart.add (Cart.add ⟨[]⟩ "A" 2).2 "A" 3).2 = ⟨[⟨"A", 2⟩, ⟨"A", 3⟩]⟩ ∧
    checkout bulkOnlyEngine ⟨⟨[⟨"A", 2⟩, ⟨"A", 3⟩]⟩, [("A", 10)], []⟩
        [("A", productA)] "REGULAR" 0 "t"
      = (.ok ⟨"ORD-000001", "t",
              [⟨"A", 2, 10, 20⟩, ⟨"A", 3, 9.5, 28.5⟩], 48.5⟩,
         ⟨⟨[]⟩, [("A", 5)],
          [⟨"ORD-000001", "t", [⟨"A", 2, 10, 20⟩, ⟨"A", 3, 9.5, 28.5⟩], 48.5⟩]⟩) ∧
    round2 (bulkOnlyEngine.price_item "A" productA 5 10 ⟨"REGULAR", 0⟩ * 5)
      = 47.5 ∧
    (48.5 : ℚ) ≠ 47.5 :=
  ⟨by with_unfolding_all rfl, by with_unfolding_all rfl,
   by with_unfolding_all rfl, by norm_num⟩

/-- C9 counterexample: the claim says a malformed stored component is
replaced by its fixed default.  With a stored promotions object whose
`happy_hour` value is the (malformed) number 42, `get_promotions` returns
that 42 verbatim instead of the default: `data.get(key, default)` only
substitutes when the key is absent. -/
theorem get_promotions_malformed_counterexample :
    get_promotions (.content (.obj [("happy_hour", .num 42)]))
      = .obj [("category_discounts", .obj []),
              ("happy_hour", .num 42),
              ("bulk", bulkDefault)] ∧
    Json.num 42 ≠ happyHourDefault :=
  ⟨rfl, fun h => Json.noConfusion (happyHourDefault.eq_def ▸ h)⟩

/-- C9 amended: `get_promotions` never raises (it is total on every observable
store state) and always returns an object with exactly the keys
`category_discounts`, `happy_hour`, `bulk`; the fixed defaults are
substituted whenever the whole stored value is missing, blank, unparsable or
not an object, and component-wise whenever a key is absent — but a key that
is present keeps its stored value verbatim, even if malformed. -/
theorem get_promotions_defaults_amended :
    (get_promotions .missing = defaultPromotions ∧
     get_promotions .empty = defaultPromotions ∧
     get_promotions .corrupt = defaultPromotions ∧
     get_promotions (.content (.arr [])) = defaultPromotions ∧
     get_promotions (.content (.str "oops")) = defaultPromotions) ∧
    (∀ kvs : List (String × Json),
      get_promotions (.content (.obj kvs))
        = .obj [("category_discounts",
                  (kvs.lookup "category_discounts").getD (.obj [])),
                ("happy_hour", (kvs.lookup "happy_hour").getD happyHourDefault),
                ("bulk", (kvs.lookup "bulk").getD bulkDefault)]) ∧
    (∀ kvs : List (String × Json), kvs.lookup "happy_hour" = none →
      ∃ c b, get_promotions (.content (.obj kvs))
        = .obj [("category_discounts", c),
                ("happy_hour", happyHourDefault),
                ("bulk", b)]) ∧
    (∀ f : ReadFile, ∃ c h b, get_promotions f
        = .obj [("category_discounts", c), ("happy_hour", h), ("bulk", b)]) := by
  refine ⟨⟨rfl, rfl, rfl, rfl, rfl⟩, fun kvs => rfl, ?_, ?_⟩
  · intro kvs hmiss
    exact ⟨(kvs.lookup "category_discounts").getD (.obj []),
           (kvs.lookup "bulk").getD bulkDefault,
           by simp only [get_promotions, read_json, hmiss, Option.getD_none]⟩
  · intro f
    cases f with
    | missing => exact ⟨_, _, _, rfl⟩
    | empty => exact ⟨_, _, _, rfl⟩
    | corrupt => exact ⟨_, _, _, rfl⟩
    | content j => cases j <;> exact ⟨_, _, _, rfl⟩

/-- C9 amended witness: a stored object with only a `category_discounts` key
gets the happy-hour default substituted. -/
theorem get_promotions_defaults_amended_witness :
    ∃ c b, get_promotions (.content (.obj [("category_discounts", .obj [])]))
      = .obj [("category_discounts", c),
              ("happy_hour", happyHourDefault),
              ("bulk", b)] :=
  get_promotions_defaults_amended.2.2.1 [("category_discounts", .obj [])] rfl

/-- C2: if the cart, read in order, has a first offending item — one whose
SKU is absent from the catalog, or whose quantity exceeds the available
stock — then `checkout` raises exactly the matching validation error for
that item (`SkuNotFound` taking precedence over `InsufficientStock`), and
the post-call inventory, order history and cart items all equal their
pre-call state: the failure performs no mutation. -/
theorem checkout_validation_atomic (pricing : PricingService)
    (st : CheckoutState) (products_map : List (String × Product))
    (tier : String) (now : Nat) (ts : String)
    (pre post : List CartItem) (it : CartItem)
    (hsplit : st.cart.items = pre ++ it :: post)
    (hclean : ∀ j ∈ pre, ¬ offends products_map st.inventory j)
    (hit : offends products_map st.inventory it) :
    checkout pricing st products_map tier now ts
      = (.error (classify products_map it), st) := by
  unfold checkout
  rw [hsplit, validate_first products_map st.inventory it post pre hclean hit]

/-- C2 witness: a cart whose first line is satisfiable and whose second line
requests 5 of "B" with only 2 in stock fails with `InsufficientStock "B"`
and leaves the whole state untouched. -/
theorem checkout_validation_atomic_witness :
    checkout emptyEngine
        ⟨⟨[⟨"A", 1⟩, ⟨"B", 5⟩]⟩, [("A", 10), ("B", 2)], []⟩
        [("A", productA), ("B", productA)] "REGULAR" 0 "t"
      = (.error (.insufficientStock "B"),
         ⟨⟨[⟨"A", 1⟩, ⟨"B", 5⟩]⟩, [("A", 10), ("B", 2)], []⟩) := by
  have h := checkout_validation_atomic emptyEngine
    ⟨⟨[⟨"A", 1⟩, ⟨"B", 5⟩]⟩, [("A", 10), ("B", 2)], []⟩
    [("A", productA), ("B", productA)] "REGULAR" 0 "t"
    [⟨"A", 1⟩] [] ⟨"B", 5⟩ rfl
    (by
      intro j hj
      rw [List.mem_singleton] at hj
      subst hj
      decide)
    (Or.inr (by decide))
  rw [h]
  rfl

/-- C1 counterexample: the claim asserts post-commit inventory quantities
are non-negative even when several lines of one SKU individually pass
validation but jointly overdraw the stock.  A cart with two qty-3 lines of
"A" against a stock of 5 checks out successfully (each line is validated
against the same untouched snapshot) and leaves the committed inventory at
-1. -/
theorem checkout_inventory_negative_counterexample :
    checkout emptyEngine ⟨⟨[⟨"A", 3⟩, ⟨"A", 3⟩]⟩, [("A", 5)], []⟩
        [("A", productA)] "REGULAR" 0 "t"
      = (.ok ⟨"ORD-000001", "t", [⟨"A", 3, 10, 30⟩, ⟨"A", 3, 10, 30⟩], 60⟩,
         ⟨⟨[]⟩, [("A", -1)],
          [⟨"ORD-000001", "t", [⟨"A", 3, 10, 30⟩, ⟨"A", 3, 10, 30⟩], 60⟩]⟩) ∧
    (-1 : Int) < 0 :=
  ⟨by with_unfolding_all rfl, by norm_num⟩

/-- C1 amended: after a checkout that completes successfully, every quantity
in the post-commit inventory snapshot is non-negative, provided that for
each inventory entry the cart's total requested quantity for that SKU
(summed across its possibly-multiple lines) does not exceed the entry's
stock.  Without that proviso the invariant fails: validation checks each
line separately, so duplicate lines of one SKU can jointly overdraw the
stock (see the counterexample). -/
theorem checkout_inventory_nonneg_amended (pricing : PricingService)
    (st : CheckoutState) (products_map : List (String × Product))
    (tier : String) (now : Nat) (ts : String) (o : Order) (st2 : CheckoutState)
    (hnodup : (st.inventory.map Prod.fst).Nodup)
    (hsum : ∀ kv ∈ st.inventory, totalQty st.cart.items kv.1 ≤ kv.2)
    (hok : checkout pricing st products_map tier now ts = (.ok o, st2)) :
    ∀ kv ∈ st2.inventory, 0 ≤ kv.2 := by
  unfold checkout at hok
  split at hok
  · simp at hok
  · split at hok
    · simp at hok
    · split at hok
      · simp at hok
      · rename_i heq
        simp only [Prod.mk.injEq, Except.ok.injEq] at hok
        have hinv : st2.inventory = (deductAll st.cart.items st.inventory).2 := by
          rw [← hok.2, heq]
        have hfail : (deductAll st.cart.items st.inventory).1 = none := by
          rw [heq]
        rw [hinv, deductAll_eq_map st.cart.items st.inventory hnodup hfail]
        intro kv hkv
        rcases List.mem_map.mp hkv with ⟨kv0, hkv0, hmap⟩
        rw [← hmap]
        have := hsum kv0 hkv0
        simpa using this

/-- C1 amended witness: a cart requesting 2 then 3 of "A" against a stock of
5 checks out successfully and leaves the inventory at the non-negative 0. -/
theorem checkout_inventory_nonneg_amended_witness :
    (0 : Int) ≤ (("A", 0) : String × Int).2 :=
  checkout_inventory_nonneg_amended emptyEngine
    ⟨⟨[⟨"A", 2⟩, ⟨"A", 3⟩]⟩, [("A", 5)], []⟩ [("A", productA)] "REGULAR" 0 "t"
    ⟨"ORD-000001", "t", [⟨"A", 2, 10, 20⟩, ⟨"A", 3, 10, 30⟩], 50⟩
    ⟨⟨[]⟩, [("A", 0)],
      [⟨"ORD-000001", "t", [⟨"A", 2, 10, 20⟩, ⟨"A", 3, 10, 30⟩], 50⟩]⟩
    (by simp)
    (by
      intro kv hkv
      rw [List.mem_singleton] at hkv
      subst hkv
      norm_num [totalQty])
    (by with_unfolding_all rfl)
    ("A", 0) (List.mem_singleton.mpr rfl)

end XuperManager
